import Mathlib

/-!
Verification of the BuildCache wrapper layer (Rust and Cppcheck wrappers,
environment utilities) against its natural-language specification.

The definitions below are a shallow embedding of the C++ sources under
`src/src/wrappers/rust_wrapper.cpp`, `src/src/wrappers/cppcheck_wrapper.cpp`
and `src/src/base/env_utils_test.cpp`.  C++ `std::string` values are embedded
as Lean `String` (all data exercised here is ASCII, where C++ byte order and
Lean codepoint order coincide), `string_list_t` as `List String`,
`std::map<K,V>` as an association list updated by `mapAssign`, and fallible
functions (`throw`) as `Except String _`.  Helpers whose implementation files
are not part of the provided sources (`base/env_utils.hpp`,
`base/file_utils.hpp`, `base/string_list.hpp`) are modelled from the spec and
marked as such in their doc comments.
-/

/-! ## Basic string machinery (string_list_t, character helpers) -/

deriving instance DecidableEq for Except

/-- Modelled from the spec: `lower_case` from base/unicode_utils (implementation
not in src/); ASCII lower-casing applied per character. -/
def asciiToLower (c : Char) : Char :=
  if 65 ≤ c.toNat ∧ c.toNat ≤ 90 then Char.ofNat (c.toNat + 32) else c

/-- Modelled from the spec: `lower_case` on whole strings. -/
def lower_case (s : String) : String := String.mk (s.toList.map asciiToLower)

/-- Exact-field split on a separator character over a character list: `k`
separator occurrences produce exactly `k+1` fields, empty fields kept. -/
def splitChars (sep : Char) : List Char → List (List Char)
  | [] => [[]]
  | c :: cs =>
    if c = sep then [] :: splitChars sep cs
    else
      match splitChars sep cs with
      | [] => [[c]]
      | f :: rest => (c :: f) :: rest

/-- Modelled from the spec: `string_list_t(s, sep)` split constructor from
base/string_list.hpp (implementation not in src/): exact-field split, no
trimming, no collapsing of empty fields. -/
def cppSplit (s : String) (sep : Char) : List String :=
  (splitChars sep s.toList).map String.mk

/-- Modelled from the spec: `string_list_t::join(sep)` — concatenation of the
fields with the separator between consecutive fields. -/
def cppJoin (xs : List String) (sep : String) : String :=
  match xs with
  | [] => ""
  | x :: rest => rest.foldl (fun acc y => acc ++ sep ++ y) x

/-- Byte-wise (codepoint-wise) strict order on character lists, mirroring
`std::string::operator<`. -/
def charsLt : List Char → List Char → Bool
  | [], [] => false
  | [], _ :: _ => true
  | _ :: _, [] => false
  | a :: as, b :: bs =>
    if a.toNat < b.toNat then true
    else if b.toNat < a.toNat then false
    else charsLt as bs

/-- `std::string` strict order used by `std::sort` and `std::includes`. -/
def strLt (a b : String) : Bool := charsLt a.toList b.toList

/-- Insertion into a sorted list; `strSort` below models `std::sort` on a
`string_list_t` (distinct orderings agree because equal keys are identical). -/
def insertSorted (x : String) : List String → List String
  | [] => [x]
  | y :: ys => if strLt y x then y :: insertSorted x ys else x :: y :: ys

/-- Model of `std::sort` on a list of strings. -/
def strSort (xs : List String) : List String := xs.foldr insertSorted []

/-- Model of `std::includes(first1, last1, first2, last2)` on sorted string
ranges: multiset containment of the second range in the first, following the
standard merge-based algorithm. -/
def cppIncludes : List String → List String → Bool
  | _, [] => true
  | [], _ :: _ => false
  | a :: as, b :: bs =>
    if strLt b a then false
    else if strLt a b then cppIncludes as (b :: bs)
    else cppIncludes as bs

/-- Prefix test on character lists (`pat` is a prefix of `hay`). -/
def startsWithChars : List Char → List Char → Bool
  | [], _ => true
  | _ :: _, [] => false
  | a :: as, b :: bs => a = b && startsWithChars as bs

/-- Substring scan on character lists, mirroring `std::string::find(pat) !=
npos`: `pat` occurs somewhere in `hay`. -/
def containsChars : List Char → List Char → Bool
  | [], pat => startsWithChars pat []
  | c :: t, pat => startsWithChars pat (c :: t) || containsChars t pat

/-- `hay.find(pat) != std::string::npos` on strings. -/
def cppContains (hay pat : String) : Bool := containsChars hay.toList pat.toList

/-- Assignment `m[k] = v` on a `std::map` embedded as an association list:
replaces the value when the key is present, otherwise appends the entry. -/
def mapAssign (m : List (String × String)) (k v : String) : List (String × String) :=
  if m.any (fun p => p.1 = k) then m.map (fun p => if p.1 = k then (k, v) else p)
  else m ++ [(k, v)]

/-- Modelled from the spec: `file::get_extension` from base/file_utils.hpp
(implementation not in src/): the suffix of the final path component starting
at its last dot, including the dot; empty when there is no dot. -/
def get_extension (s : String) : String :=
  let base := (splitChars '/' s.toList).getLastD []
  let afterDot := (splitChars '.' base).getLastD []
  if base.contains '.' then String.mk ('.' :: afterDot) else ""

/-- Modelled from the spec: `file::get_file_part(path, false)` from
base/file_utils.hpp (implementation not in src/): the final path component
with the extension (final dot onwards) removed. -/
def get_file_part_noext (path : String) : String :=
  let base := (splitChars '/' path.toList).getLastD []
  if base.contains '.' then
    let parts := splitChars '.' base
    String.mk (cppJoin ((parts.take (parts.length - 1)).map String.mk) ".").toList
  else String.mk base

/-- Modelled from the spec: `file::join(a, b)` from base/file_utils.hpp
(implementation not in src/): returns `b` when it is absolute, otherwise the
two components joined with a path separator. -/
def file_join (a b : String) : String :=
  if startsWithChars ['/'] b.toList then b else a ++ "/" ++ b

/-! ## Cppcheck wrapper embedding (src/src/wrappers/cppcheck_wrapper.cpp) -/

/-- Source-file extensions accepted by the Cppcheck wrapper
(cppcheck_wrapper.cpp, `is_source_file`). -/
def cppcheck_source_exts : List String :=
  [".cpp", ".cxx", ".cc", ".c++", ".c", ".ipp", ".ixx", ".tpp", ".txx"]

/-- `is_source_file` from cppcheck_wrapper.cpp. -/
def cppcheck_is_source_file (arg : String) : Bool :=
  cppcheck_source_exts.contains (lower_case (get_extension arg))

/-- `is_two_part_arg` from cppcheck_wrapper.cpp. -/
def cppcheck_is_two_part_arg (arg : String) : Bool :=
  ["-D", "-U", "-I", "-i", "-j", "-l"].contains arg

/-- The allow-list of `is_supported_arg` from cppcheck_wrapper.cpp (only the
non-commented entries of the C++ table). -/
def cppcheck_supported_args : List String :=
  ["--check-level", "--check-library", "--disable", "-D", "--enable",
   "--error-exitcode", "--exitcode-suppressions", "--file-filter", "-f",
   "--force", "--fsigned-char", "--funsigned-char", "-I", "-i",
   "--inconclusive", "--inline-suppr", "--language", "--max-configs",
   "--max-ctu-depth", "--output-file", "--platform", "--premium", "-q",
   "--quiet", "-rp", "--relative-paths", "--rule", "--showtime", "--std",
   "--suppress", "--template", "--template-location", "-U", "-v",
   "--verbose", "--xml"]

/-- `is_supported_arg` from cppcheck_wrapper.cpp. -/
def cppcheck_is_supported_arg (arg : String) : Bool :=
  cppcheck_supported_args.contains arg || cppcheck_is_source_file arg

/-- `cppcheck_wrapper_t::arg_pair_t`. -/
structure arg_pair_t where
  arg : String
  opt : String
  equal_separator : Bool
deriving DecidableEq

/-- `cppcheck_wrapper_t::arg_pair_t::get()`: canonical rendering of a parsed
argument pair back into command-line tokens. -/
def arg_pair_t.get (p : arg_pair_t) : List String :=
  if p.equal_separator then [p.arg ++ "=" ++ p.opt]
  else [p.arg] ++ (if p.opt = "" then [] else [p.opt])

/-- Classification of one non-two-part token in
`cppcheck_wrapper_t::parse_arguments`: glued two-part prefix, `=`-separated
pair, or plain flag. -/
def cppcheck_single (a : String) : arg_pair_t :=
  if cppcheck_is_two_part_arg (String.mk (a.toList.take 2)) then
    ⟨String.mk (a.toList.take 2), String.mk (a.toList.drop 2), false⟩
  else if a.toList.contains '=' then
    ⟨String.mk (a.toList.takeWhile (fun c => ¬ c = '=')),
     String.mk (((a.toList.dropWhile (fun c => ¬ c = '=')).drop 1)), true⟩
  else ⟨a, "", false⟩

/-- The token loop of `cppcheck_wrapper_t::parse_arguments` (operating on the
arguments after the program name). -/
def cppcheck_parse_loop : List String → List arg_pair_t
  | [] => []
  | [a] => [cppcheck_single a]
  | a :: b :: rt =>
    if cppcheck_is_two_part_arg a then ⟨a, b, false⟩ :: cppcheck_parse_loop rt
    else cppcheck_single a :: cppcheck_parse_loop (b :: rt)

/-- `cppcheck_wrapper_t::parse_arguments`: parse all arguments after the
program name into pairs, then fail on the first unsupported argument. -/
def cppcheck_parse_arguments (args : List String) : Except String (List arg_pair_t) :=
  let pairs := cppcheck_parse_loop args.tail
  match pairs.find? (fun p => !(cppcheck_is_supported_arg p.arg)) with
  | some p => .error ("Unsupported argument: " ++ cppJoin p.get " ")
  | none => .ok pairs

/-- `cppcheck_wrapper_t::make_preprocessor_cmd`: the program name, then every
parsed pair except `--output-file` pairs rendered by `arg_pair_t::get`, then
`-E`. -/
def cppcheck_make_preprocessor_cmd (arg0 : String) (pairs : List arg_pair_t) : List String :=
  (pairs.foldl (fun acc p => if p.arg = "--output-file" then acc else acc ++ p.get) [arg0])
    ++ ["-E"]

/-- `expected_file_t` (program_wrapper.hpp): a build product the wrapper
promises, with its required flag. -/
structure expected_file_t where
  path : String
  required : Bool
deriving DecidableEq

/-- The loop body of `cppcheck_wrapper_t::get_build_files`.  Note that the
source initializes `found_output_file = false` and never assigns it again;
the embedding mirrors that faithfully. -/
def cppcheck_build_files_loop (found_output_file : Bool)
    (files : List (String × expected_file_t)) :
    List arg_pair_t → Except String (List (String × expected_file_t))
  | [] => .ok files
  | p :: rest =>
    if p.arg = "--output-file" then
      if found_output_file then .error "Only a single output file can be specified."
      else
        cppcheck_build_files_loop found_output_file
          ((if files.any (fun q => q.1 = "output_file") then
              files.map (fun q => if q.1 = "output_file" then ("output_file", ⟨p.opt, true⟩) else q)
            else files ++ [("output_file", expected_file_t.mk p.opt true)])) rest
    else cppcheck_build_files_loop found_output_file files rest

/-- `cppcheck_wrapper_t::get_build_files`. -/
def cppcheck_get_build_files (pairs : List arg_pair_t) :
    Except String (List (String × expected_file_t)) :=
  cppcheck_build_files_loop false [] pairs

/-- `cppcheck_wrapper_t::can_handle_command`: the lower-cased basename
(extension removed) of the resolved executable must contain "cppcheck"
(`std::string::find != npos`); the argument list is never consulted. -/
def cppcheck_can_handle_command (real_path : String) (args : List String) : Bool :=
  cppContains (lower_case (get_file_part_noext real_path)) "cppcheck"

/-! ## Rust wrapper embedding (src/src/wrappers/rust_wrapper.cpp) -/

/-- `option_type_t` from rust_wrapper.cpp: categories of rustc options. -/
inductive option_type_t where
  | UNSUPPORTED | UNHANDLED | IGNORED | LIBRARY_PATH | LIBRARY | CRATE_TYPE
  | CRATE_NAME | EMIT | CODE_GEN | OUT_DIR | TARGET | EXTERN | RESPONSE_FILE | PATH
deriving DecidableEq

/-- `option_info_t` from rust_wrapper.cpp; `m_has_argument = true` embeds
`has_argument_t::YES`. -/
structure option_info_t where
  m_success : Bool
  m_type : option_type_t
  m_has_argument : Bool
  m_option : String
  m_argument : String
deriving DecidableEq

/-- The static option table of `get_option_type` in rust_wrapper.cpp; `none`
stands for a key that is absent from the map (classified `PATH`, no
argument). -/
def rust_option_specification (s : String) : Option (option_type_t × Bool) :=
  if s = "-" then some (.UNSUPPORTED, false)
  else if s = "-h" then some (.UNHANDLED, false)
  else if s = "--help" then some (.UNHANDLED, false)
  else if s = "--cfg" then some (.IGNORED, true)
  else if s = "-L" then some (.LIBRARY_PATH, true)
  else if s = "-l" then some (.LIBRARY, true)
  else if s = "--crate-type" then some (.CRATE_TYPE, true)
  else if s = "--crate-name" then some (.CRATE_NAME, true)
  else if s = "--edition" then some (.IGNORED, true)
  else if s = "--emit" then some (.EMIT, true)
  else if s = "--print" then some (.UNHANDLED, true)
  else if s = "-g" then some (.CODE_GEN, false)
  else if s = "-O" then some (.CODE_GEN, false)
  else if s = "-o" then some (.UNSUPPORTED, true)
  else if s = "--out-dir" then some (.OUT_DIR, true)
  else if s = "--explain" then some (.UNHANDLED, true)
  else if s = "--test" then some (.UNHANDLED, false)
  else if s = "--target" then some (.TARGET, true)
  else if s = "-A" then some (.IGNORED, true)
  else if s = "--allow" then some (.IGNORED, true)
  else if s = "-W" then some (.IGNORED, true)
  else if s = "--warn" then some (.IGNORED, true)
  else if s = "--force-warn" then some (.IGNORED, true)
  else if s = "-D" then some (.IGNORED, true)
  else if s = "--deny" then some (.IGNORED, true)
  else if s = "-F" then some (.IGNORED, true)
  else if s = "--forbid" then some (.IGNORED, true)
  else if s = "--cap-lints" then some (.IGNORED, true)
  else if s = "-C" then some (.CODE_GEN, true)
  else if s = "--codegen" then some (.CODE_GEN, true)
  else if s = "-V" then some (.UNHANDLED, false)
  else if s = "--version" then some (.UNHANDLED, false)
  else if s = "-v" then some (.IGNORED, false)
  else if s = "--verbose" then some (.IGNORED, false)
  else if s = "--extern" then some (.EXTERN, true)
  else if s = "--sysroot" then some (.UNSUPPORTED, true)
  else if s = "--error-format" then some (.IGNORED, true)
  else if s = "--json" then some (.IGNORED, true)
  else if s = "--color" then some (.IGNORED, true)
  else if s = "--diagnostic-width" then some (.IGNORED, true)
  else if s = "--remap-path-prefix" then some (.UNSUPPORTED, true)
  else if s = "@" then some (.RESPONSE_FILE, false)
  else none

/-- A successfully matched option together with its classification
(`get_option_type` applied after the regex match). -/
def rust_option_mk (opt arg : String) : option_info_t :=
  match rust_option_specification opt with
  | some (t, ha) => ⟨true, t, ha, opt, arg⟩
  | none => ⟨true, .PATH, false, opt, arg⟩

/-- ECMAScript `\s` on the characters rustc arguments can contain. -/
def isWsChar (c : Char) : Bool :=
  c = ' ' ∨ c = '\t' ∨ c = '\n' ∨ c = '\r' ∨ c = Char.ofNat 11 ∨ c = Char.ofNat 12

/-- No whitespace anywhere in the token (every regex alternative requires
this). -/
def wsFree (s : String) : Bool := s.toList.all (fun c => !isWsChar c)

/-- The glued-value short option letters `[hLlgOoAWDFCVv]` of the regex in
`parse_argument`. -/
def rust_short_opt_chars : List Char :=
  ['h', 'L', 'l', 'g', 'O', 'o', 'A', 'W', 'D', 'F', 'C', 'V', 'v']

/-- `parse_argument` from rust_wrapper.cpp: the ordered alternatives of the
classifying regex
`^(?:(--[^\s=]*)=(\S*))|(?:(-[hLlgOoAWDFCVv])(\S*))|(-)|(?:(@)(\S+))|(\S+)$`,
followed by the `get_option_type` table lookup.  A token that matches no
alternative yields `m_success = false` with the token in `m_option`. -/
def parse_argument (argument : String) : option_info_t :=
  let cs := argument.toList
  if wsFree argument ∧ startsWithChars ['-', '-'] cs ∧ (cs.drop 2).contains '=' then
    rust_option_mk
      (String.mk ('-' :: '-' :: (cs.drop 2).takeWhile (fun c => ¬ c = '=')))
      (String.mk (((cs.drop 2).dropWhile (fun c => ¬ c = '=')).drop 1))
  else if wsFree argument ∧ 2 ≤ cs.length ∧ cs.headD ' ' = '-'
      ∧ rust_short_opt_chars.contains (cs.getD 1 ' ') then
    rust_option_mk (String.mk (cs.take 2)) (String.mk (cs.drop 2))
  else if argument = "-" then rust_option_mk "-" ""
  else if wsFree argument ∧ cs.headD ' ' = '@' ∧ 2 ≤ cs.length then
    rust_option_mk "@" (String.mk (cs.drop 1))
  else if wsFree argument ∧ 1 ≤ cs.length then rust_option_mk argument ""
  else ⟨false, .PATH, false, argument, ""⟩

/-- The local parse state accumulated by `rust_wrapper_t::parse_options`
before verification. -/
structure rust_parse_state where
  parsed_args : List String
  relevant_args : List String
  static_library_paths : List String
  static_library_names : List String
  crate_type_rlib : Bool
  crate_type_static_lib : Bool
  crate_name : String
  emit : List String
  extra_filename : String
  output_dir : String
  externs : List String
  input : String
  errors : List String
deriving DecidableEq

/-- The `switch (option.m_type)` body of `rust_wrapper_t::parse_options`,
applied after `parsed_args` has been extended.  The returned flag is true for
the cases that fall through to the trailing `relevant_args` append (`break`)
and false for the cases that `continue`. -/
def rust_handle_option (cwd : String) (file_exists : String → Bool)
    (st : rust_parse_state) (ty : option_type_t) (arg1 arg2 : String) :
    rust_parse_state × Bool :=
  match ty with
  | .UNSUPPORTED =>
    ({st with errors := st.errors ++ ["Unsupported compiler argument " ++ arg1]}, false)
  | .UNHANDLED =>
    ({st with errors := st.errors ++ ["Unhandled compiler argument " ++ arg1]}, false)
  | .IGNORED => (st, false)
  | .LIBRARY_PATH =>
    let argument := cppSplit arg2 '='
    let kind := if argument.length = 2 then argument.getD 1 "" else ""
    if kind = "" ∨ kind = "native" ∨ kind = "all" then
      ({st with static_library_paths := st.static_library_paths ++ [argument.getLastD ""]},
       false)
    else (st, false)
  | .LIBRARY =>
    let argument := cppSplit arg2 '='
    let kind := if argument.length = 2 then argument.getD 1 "" else ""
    if kind = "static" then
      ({st with static_library_names := st.static_library_names ++ [argument.getLastD ""]},
       true)
    else (st, true)
  | .CRATE_TYPE =>
    if st.crate_type_rlib ∧ st.crate_type_static_lib then (st, true)
    else
      let crate_types := cppSplit arg2 ','
      ({st with
          crate_type_rlib := st.crate_type_rlib ∨ crate_types.contains "lib"
            ∨ crate_types.contains "rlib",
          crate_type_static_lib := st.crate_type_static_lib
            ∨ crate_types.contains "staticlib"}, true)
  | .CRATE_NAME => ({st with crate_name := arg2}, true)
  | .EMIT =>
    if ¬ st.emit = [] then
      ({st with errors := st.errors ++ ["Cannot handle more than one --emit"]}, false)
    else ({st with emit := strSort (cppSplit arg2 ',')}, true)
  | .CODE_GEN =>
    let argument := cppSplit arg2 '='
    let opt := if argument.length = 2 then argument.getD 1 "" else ""
    let st1 :=
      if argument.headD "" = "extra-filename" then
        {st with extra_filename := argument.getLastD ""}
      else st
    if argument.headD "" = "extra-filename" ∧ argument.getLastD "" = "" then
      ({st1 with errors := st1.errors ++ ["Can't cache extra-filename"]}, false)
    else if opt = "incremental" then
      ({st1 with errors := st1.errors ++ ["Can't cache incremental builds"]}, false)
    else (st1, true)
  | .OUT_DIR => ({st with output_dir := arg2}, false)
  | .TARGET =>
    if get_extension arg2 = "json" ∨ file_exists (arg2 ++ ".json") then
      ({st with errors := st.errors ++ ["Can't cache target " ++ arg2]}, false)
    else (st, true)
  | .EXTERN =>
    let argument := cppSplit arg2 '='
    let extern_lib := if argument.length = 2 then argument.getD 1 "" else ""
    if ¬ extern_lib = "" then
      ({st with externs := st.externs ++ [file_join cwd extern_lib]}, false)
    else (st, false)
  | .RESPONSE_FILE =>
    ({st with errors := st.errors ++ ["Cannot handle response file " ++ arg1]}, false)
  | .PATH =>
    if ¬ st.input = "" then
      ({st with errors := st.errors ++ ["Cannot handle multiple inputs " ++ arg1]}, false)
    else ({st with input := arg1}, true)

/-- One iteration body past the missing-argument check: extend `parsed_args`,
run the switch, and append to `relevant_args` on fall-through. -/
def rust_process_option (cwd : String) (file_exists : String → Bool)
    (st : rust_parse_state) (opt : option_info_t) (arg2 : String) : rust_parse_state :=
  let st1 := {st with
    parsed_args := st.parsed_args ++ [opt.m_option] ++ (if arg2 = "" then [] else [arg2])}
  let r := rust_handle_option cwd file_exists st1 opt.m_type opt.m_option arg2
  if r.2 then
    {r.1 with
      relevant_args := r.1.relevant_args ++ [opt.m_option]
        ++ (if arg2 = "" then [] else [arg2])}
  else r.1

/-- The argument loop of `rust_wrapper_t::parse_options` over the arguments
after `argv[0]`, consuming a following token when the matched option needs an
argument and none was glued on. -/
def rust_parse_loop (cwd : String) (file_exists : String → Bool) :
    List String → rust_parse_state → rust_parse_state
  | [], st => st
  | a :: rest, st =>
    let opt := parse_argument a
    if opt.m_success = false then
      rust_parse_loop cwd file_exists rest {st with errors := st.errors ++ [opt.m_option]}
    else if opt.m_has_argument ∧ opt.m_argument = "" then
      match rest with
      | [] =>
        {st with errors := st.errors
          ++ ["Can't parse arguments, missing argument for " ++ opt.m_option]}
      | b :: rt =>
        if b = "" then
          rust_parse_loop cwd file_exists rt
            {st with errors := st.errors
              ++ ["Can't parse arguments, missing argument for " ++ opt.m_option]}
        else rust_parse_loop cwd file_exists rt (rust_process_option cwd file_exists st opt b)
    else rust_parse_loop cwd file_exists rest
      (rust_process_option cwd file_exists st opt opt.m_argument)

/-- The member state `rust_wrapper_t::parse_options` publishes on success. -/
structure rust_wrapper_state where
  m_output_dir : String
  m_externs : List String
  m_static_libraries : List String
  m_crate_name : String
  m_dep_info : String
  m_emit : List String
  m_input : String
  m_relevant_args : List String
  parsed_args : List String
deriving DecidableEq

/-- `rust_wrapper_t::panic`: prefix the message with the crate-name member
(`<unknown crate>` while it is empty), joined with ": ". -/
def rust_panic_msg (m_crate_name message : String) : String :=
  cppJoin [if m_crate_name = "" then "<unknown crate>" else m_crate_name, message] ": "

/-- The three on-disk candidate strings probed per collected name/path pair in
`rust_wrapper_t::parse_options`; note the source builds them from the search
path only (`{"lib", path, ".a"}`, `{path, ".lib"}`, `{path, ".a"}` joined with
"") and never uses the library name. -/
def rust_static_lib_candidates (path : String) : List String :=
  ["lib" ++ path ++ ".a", path ++ ".lib", path ++ ".a"]

/-- The verification tail of `rust_wrapper_t::parse_options` (everything after
the argument loop): collect errors, enforce required options, probe static
libraries, derive the dep-info name, sort, and publish the members.
`m_crate_name0` is the value of the `m_crate_name` member while this runs
(empty for a freshly constructed wrapper, since the member is assigned only at
the very end of a successful parse). -/
def rust_verify (file_exists : String → Bool) (m_crate_name0 : String)
    (st : rust_parse_state) : Except String rust_wrapper_state :=
  if ¬ st.errors = [] then
    .error (rust_panic_msg m_crate_name0 (cppJoin st.errors "\n"))
  else if st.input = "" then
    .error (rust_panic_msg m_crate_name0 "input file required to cache cargo/rustc compilation")
  else if st.emit = [] ∨ cppIncludes st.emit ["link", "metadata"] = false
      ∨ cppIncludes ["dep-info", "link", "metadata"] st.emit = false then
    .error (rust_panic_msg m_crate_name0 "--emit required to cache cargo/rustc compilation")
  else if st.output_dir = "" then
    .error (rust_panic_msg m_crate_name0 "--output-dir required to cache cargo/rustc compilation")
  else if st.crate_name = "" then
    .error (rust_panic_msg m_crate_name0 "--crate-name required to cache cargo/rustc compilation")
  else if ¬ st.crate_type_rlib ∧ ¬ st.crate_type_static_lib then
    .error (rust_panic_msg m_crate_name0 "--crate-type required to cache cargo/rustc compilation")
  else
    let static_libraries := st.static_library_names.foldl (fun acc _name =>
      st.static_library_paths.foldl (fun acc path =>
        (rust_static_lib_candidates path).foldl (fun acc lib_path =>
          if file_exists lib_path then acc ++ [lib_path] else acc) acc) acc) []
    let dep_info :=
      if st.emit.contains "dep-info" then st.crate_name ++ st.extra_filename ++ ".d" else ""
    .ok ⟨st.output_dir, strSort st.externs, strSort static_libraries, st.crate_name,
         dep_info, st.emit, st.input, st.relevant_args, st.parsed_args⟩

/-- The initial parse state (`parsed_args` seeded with `argv[0]`, everything
else empty, matching the local variables of `parse_options`). -/
def rust_initial_state (arg0 : String) : rust_parse_state :=
  ⟨[arg0], [], [], [], false, false, "", [], "", "", [], "", []⟩

/-- `rust_wrapper_t::parse_options` on `argv[0] :: args`: run the loop, then
the verification tail. -/
def rust_parse_options (cwd : String) (file_exists : String → Bool)
    (m_crate_name0 : String) (arg0 : String) (args : List String) :
    Except String rust_wrapper_state :=
  rust_verify file_exists m_crate_name0
    (rust_parse_loop cwd file_exists args (rust_initial_state arg0))

/-! ## Rust dep-info and environment processing
(rust_wrapper_t::process_implicit_input_files_and_relevant_env_vars) -/

/-- The env-dep scan applied to one line after the first of the dep-info file:
split the line on ":", then walk the fields starting from the *second* one
(`std::next(parts.begin())` in the source); on a field equal to "# env-dep"
take the following field, split it on "=", and record the variable unless it
is RUSTC_COLOR or CARGO_MAKEFLAGS.  (The source reads `*(parts_iterator + 1)`
unguarded; the embedding reads an empty string when no field follows, a case
no input below exercises.) -/
def rust_env_dep_scan_line (line : String) (acc : List (String × String)) :
    List (String × String) :=
  let parts := cppSplit line ':'
  if parts = [] then acc
  else
    (List.range parts.length).foldl (fun acc i =>
      if 1 ≤ i ∧ parts.getD i "" = "# env-dep" then
        let env := cppSplit (parts.getD (i + 1) "") '='
        if env.headD "" = "RUSTC_COLOR" ∨ env.headD "" = "CARGO_MAKEFLAGS" then acc
        else mapAssign acc (env.headD "") (env.getD 1 "")
      else acc) acc

/-- The CARGO_ environment collection loop: every `NAME=VALUE` entry of the
process environment in which the string "CARGO_" occurs anywhere
(`env_var.find("CARGO_") != npos` in the source) is split on "=" and recorded
under its name, except CARGO_MAKEFLAGS. -/
def rust_cargo_env_collect (env_entries : List String)
    (acc : List (String × String)) : List (String × String) :=
  env_entries.foldl (fun acc entry =>
    if cppContains entry "CARGO_" = false then acc
    else
      let env := cppSplit entry '='
      if env.headD "" = "CARGO_MAKEFLAGS" then acc
      else mapAssign acc (env.headD "") (env.getD 1 "")) acc

/-- The pure tail of
`rust_wrapper_t::process_implicit_input_files_and_relevant_env_vars` after the
dep-info probe has produced the dep file: parse the file's first line into the
implicit input files (dropping the leading target field, then sorting), scan
the remaining lines for env-deps, and add the CARGO_ environment entries.
Returns `(m_implicit_input_files, m_relevant_env_vars)`. -/
def rust_process_dep_info (dep_file_content : String) (env_entries : List String) :
    List String × List (String × String) :=
  let lines := cppSplit dep_file_content '\n'
  match lines with
  | [] => ([], [])
  | first :: restLines =>
    let implicit_input_files := (cppSplit first ' ').drop 1
    let env1 := restLines.foldl (fun acc line => rust_env_dep_scan_line line acc) []
    let relevant_env_vars := rust_cargo_env_collect env_entries env1
    (strSort implicit_input_files, relevant_env_vars)

/-! ## run_rustc environment sanitization (rust_wrapper.cpp, run_rustc) -/

/-- The fixed list of environment variables `run_rustc` unsets around every
rustc probe subprocess (rust_wrapper.cpp, the `unset` initializer list). -/
def rust_sanitized_env_vars : List String :=
  ["LD_PRELOAD", "RUNNING_UNDER_RR", "HOSTNAME", "PWD", "HOST", "RPM_BUILD_ROOT",
   "SOURCE_DATE_EPOCH", "RPM_PACKAGE_RELEASE", "MINICOM", "RPM_PACKAGE_VERSION"]

/-- A process environment: a partial map from variable names to values
(`none` = undefined). -/
def EnvState : Type := String → Option String

/-- Modelled from the spec: the combined effect of a collection of
`scoped_unset_env_t` guards (base/env_utils.hpp, implementation not in src/),
one per name, constructed in list order and restored on scope exit: each guard
records the prior state of its variable on construction and removes the
variable; on scope exit the prior state (defined or undefined) is put back,
restoring in reverse construction order (the names here are distinct, so the
restoration order is immaterial).  The first component is the environment the
scope body observes; the second is the environment after the scope exits. -/
def scoped_unset_all (names : List String) (e : EnvState) : EnvState × EnvState :=
  match names with
  | [] => (e, e)
  | n :: rest =>
    let e1 : EnvState := fun m => if m = n then none else e m
    let r := scoped_unset_all rest e1
    (r.1, fun m => if m = n then e n else r.2 m)

/-- The environment effect of `run_rustc` (rust_wrapper.cpp): build a vector
of scoped unsets for the fixed sanitization list, run the subprocess in the
resulting environment, and restore everything when the vector goes out of
scope.  Returns the environment the rustc subprocess sees and the environment
after `run_rustc` returns. -/
def run_rustc_env (e : EnvState) : EnvState × EnvState :=
  scoped_unset_all rust_sanitized_env_vars e

/-! ## Environment variable boolean parsing (base/env_utils, tested by
src/src/base/env_utils_test.cpp) -/

/-- The falsy vocabulary of `env_var_t::as_bool`. -/
def env_falsy_values : List String := ["0", "off", "no", "false", ""]

/-- Modelled from the spec: `env_var_t::as_bool` from base/env_utils
(implementation not in src/; behavior pinned by the Boolean-parsing subcase of
src/src/base/env_utils_test.cpp): false when the variable is undefined or its
lower-cased value is one of "0", "off", "no", "false" or empty; true for every
other defined value. -/
def env_var_as_bool : Option String → Bool
  | none => false
  | some v => !(env_falsy_values.contains (lower_case v))

/-! ## Helper lemmas -/

theorem startsWithChars_iff (pat hay : List Char) :
    startsWithChars pat hay = true ↔ pat <+: hay := by
  induction pat generalizing hay with
  | nil => simp [startsWithChars]
  | cons a as ih =>
    cases hay with
    | nil => simp [startsWithChars]
    | cons b bs =>
      simp [startsWithChars, List.cons_prefix_cons, ih, Bool.and_eq_true, decide_eq_true_eq]

theorem containsChars_iff (hay pat : List Char) :
    containsChars hay pat = true ↔ pat <:+: hay := by
  induction hay with
  | nil => simp [containsChars, startsWithChars_iff]
  | cons c t ih =>
    rw [List.infix_cons_iff]
    simp [containsChars, startsWithChars_iff, ih, Bool.or_eq_true]

theorem splitChars_ne_nil (sep : Char) (cs : List Char) : ¬ splitChars sep cs = [] := by
  cases cs with
  | nil => simp [splitChars]
  | cons c cs =>
    simp only [splitChars]
    split
    · simp
    · split <;> simp

theorem cppSplit_ne_nil (s : String) (sep : Char) : ¬ cppSplit s sep = [] := by
  simp [cppSplit, splitChars_ne_nil]

theorem insertSorted_ne_nil (x : String) (l : List String) : ¬ insertSorted x l = [] := by
  cases l with
  | nil => simp [insertSorted]
  | cons y ys => simp only [insertSorted]; split <;> simp

theorem strSort_ne_nil (xs : List String) (h : ¬ xs = []) : ¬ strSort xs = [] := by
  cases xs with
  | nil => exact absurd rfl h
  | cons a as => simpa [strSort] using insertSorted_ne_nil a (strSort as)

theorem rust_panic_msg_empty (x : String) :
    rust_panic_msg "" x = "<unknown crate>: " ++ x := by
  show cppJoin ["<unknown crate>", x] ": " = _
  simp only [cppJoin, List.foldl_cons, List.foldl_nil]
  rw [show "<unknown crate>" ++ ": " = "<unknown crate>: " from by decide]

theorem rust_verify_error_unknown_crate (fe : String → Bool) (st : rust_parse_state)
    (msg : String) (h : rust_verify fe "" st = .error msg) :
    ∃ m, msg = "<unknown crate>: " ++ m := by
  unfold rust_verify at h
  split_ifs at h <;>
    simp only [Except.error.injEq, reduceCtorEq] at h <;>
    exact ⟨_, h.symm.trans (rust_panic_msg_empty _)⟩

theorem rust_c4_loop_eval (cwd : String) (fe : String → Bool) (e : String) (he : ¬ e = "") :
    rust_parse_loop cwd fe
        ["src/lib.rs", "--crate-type", "rlib", "--crate-name", "foo",
         "--out-dir", "t", "--emit", e] (rust_initial_state "rustc")
      = ⟨["rustc", "src/lib.rs", "--crate-type", "rlib", "--crate-name", "foo",
          "--out-dir", "t", "--emit", e],
         ["src/lib.rs", "--crate-type", "rlib", "--crate-name", "foo", "--emit", e],
         [], [], true, false, "foo", strSort (cppSplit e ','), "", "t", [],
         "src/lib.rs", []⟩ := by
  have hpre : rust_parse_loop cwd fe
      ["src/lib.rs", "--crate-type", "rlib", "--crate-name", "foo",
       "--out-dir", "t", "--emit", e] (rust_initial_state "rustc")
      = rust_parse_loop cwd fe ["--emit", e]
          ⟨["rustc", "src/lib.rs", "--crate-type", "rlib", "--crate-name", "foo",
            "--out-dir", "t"],
           ["src/lib.rs", "--crate-type", "rlib", "--crate-name", "foo"],
           [], [], true, false, "foo", [], "", "t", [], "src/lib.rs", []⟩ := rfl
  rw [hpre]
  have hemit : parse_argument "--emit" = ⟨true, .EMIT, true, "--emit", ""⟩ := by decide
  simp only [rust_parse_loop, hemit]
  simp only [if_neg he]
  simp [rust_process_option, rust_handle_option, he]

theorem scoped_unset_all_spec (names : List String) (e : EnvState) (n : String) :
    ((scoped_unset_all names e).1 n = if n ∈ names then none else e n)
    ∧ (scoped_unset_all names e).2 n = e n := by
  induction names generalizing e with
  | nil => simp [scoped_unset_all]
  | cons hd tl ih =>
    constructor
    · show (scoped_unset_all tl (fun m => if m = hd then none else e m)).1 n = _
      rw [(ih (fun m => if m = hd then none else e m)).1]
      by_cases h : n = hd
      · simp [h]
      · by_cases h2 : n ∈ tl <;> simp [h, h2]
    · show (if n = hd then e hd
          else (scoped_unset_all tl (fun m => if m = hd then none else e m)).2 n) = _
      rw [(ih (fun m => if m = hd then none else e m)).2]
      by_cases h : n = hd
      · simp [h]
      · simp [h]

theorem cppcheck_preproc_foldl (pairs : List arg_pair_t) (acc : List String) :
    pairs.foldl (fun acc p => if p.arg = "--output-file" then acc else acc ++ p.get) acc
      = acc ++ (pairs.filter (fun p => !(decide (p.arg = "--output-file")))).flatMap
          arg_pair_t.get := by
  induction pairs generalizing acc with
  | nil => simp
  | cons p ps ih =>
    simp only [List.foldl_cons, List.filter_cons]
    by_cases h : p.arg = "--output-file"
    · simp [h, ih]
    · simp [h, ih]

/-! ## Claim theorems -/

/-- C1: the dep-info env-dep parser never collects a variable from a line of
the documented form `# env-dep:NAME=VALUE`: the scan compares only the fields
*after* the first against "# env-dep", so for the dep file
"out.d: main.rs\n# env-dep:FOO=bar" the returned relevant-env map is empty
(FOO is absent), although the claim requires FOO ↦ "bar". -/
theorem rust_c1_env_dep_line_never_matches :
    rust_process_dep_info "out.d: main.rs\n# env-dep:FOO=bar" [] = (["main.rs"], [])
    ∧ ((rust_process_dep_info "out.d: main.rs\n# env-dep:FOO=bar" []).2.any
        (fun p => p.1 = "FOO")) = false := by decide

/-- C2: `get_build_files` never rejects a repeated `--output-file`: the
`found_output_file` flag is initialized false and never set, so with
`--output-file=a.xml --output-file=b.xml` it returns the last file instead of
failing; with a single `--output-file=out.xml` it returns the expected
single-entry map. -/
theorem cppcheck_c2_duplicate_output_file_not_rejected :
    cppcheck_parse_arguments ["cppcheck", "--output-file=a.xml", "--output-file=b.xml",
        "src.cpp"]
      = .ok [⟨"--output-file", "a.xml", true⟩, ⟨"--output-file", "b.xml", true⟩,
             ⟨"src.cpp", "", false⟩]
    ∧ cppcheck_get_build_files [⟨"--output-file", "a.xml", true⟩,
        ⟨"--output-file", "b.xml", true⟩, ⟨"src.cpp", "", false⟩]
      = .ok [("output_file", ⟨"b.xml", true⟩)]
    ∧ cppcheck_get_build_files [⟨"--output-file", "out.xml", true⟩, ⟨"src.cpp", "", false⟩]
      = .ok [("output_file", ⟨"out.xml", true⟩)] := by decide

/-- C3: the static-library probe ignores the collected library name: with
name "static" (collected from `-l foo=static`) and search path "/libs", the
probed candidates are `"lib" ++ path ++ ".a"`, `path ++ ".lib"`,
`path ++ ".a"` — built from the path only, not `libNAME.a` / `NAME.lib` /
`NAME.a` under the path — and `m_static_libraries` (whose entries
`get_program_id` hashes by name and content) contains no candidate mentioning
the name at all. -/
theorem rust_c3_static_probe_ignores_library_name :
    rust_parse_options "/w" (fun _ => true) "" "rustc"
        ["src/lib.rs", "--crate-type", "rlib", "--crate-name", "foo", "--out-dir", "t",
         "--emit", "link,metadata", "-L", "/libs", "-l", "foo=static"]
      = .ok ⟨"t", [], ["/libs.a", "/libs.lib", "lib/libs.a"], "foo", "",
             ["link", "metadata"], "src/lib.rs",
             ["src/lib.rs", "--crate-type", "rlib", "--crate-name", "foo",
              "--emit", "link,metadata", "-l", "foo=static"],
             ["rustc", "src/lib.rs", "--crate-type", "rlib", "--crate-name", "foo",
              "--out-dir", "t", "--emit", "link,metadata", "-L", "/libs",
              "-l", "foo=static"]⟩
    ∧ rust_static_lib_candidates "/libs" = ["lib/libs.a", "/libs.lib", "/libs.a"]
    ∧ (["/libs.a", "/libs.lib", "lib/libs.a"].all
        (fun p => !(cppContains p "static"))) = true := by decide

/-- C4 counterexample: with `--emit link,link,metadata` the emit *set* does
include both link and metadata and is a subset of {link, metadata, dep-info},
yet `parse_options` fails with the "--emit required" message, because
`std::includes` treats the sorted emit list as a multiset and the duplicated
"link" is not contained in the allowed list. -/
theorem rust_c4_duplicate_emit_values_rejected :
    rust_parse_options "/w" (fun _ => false) "" "rustc"
        ["src/lib.rs", "--crate-type", "rlib", "--crate-name", "foo", "--out-dir", "t",
         "--emit", "link,link,metadata"]
      = .error "<unknown crate>: --emit required to cache cargo/rustc compilation"
    ∧ cppSplit "link,link,metadata" ',' = ["link", "link", "metadata"]
    ∧ (["link", "metadata"].all
        (fun x => (cppSplit "link,link,metadata" ',').contains x)) = true
    ∧ ((cppSplit "link,link,metadata" ',').all
        (fun x => ["link", "metadata", "dep-info"].contains x)) = true := by decide

/-- C4 (amended): in an otherwise well-formed rustc invocation carrying
`--emit e`, parsing fails with the message "--emit required to cache
cargo/rustc compilation" if and only if the sorted emit value list fails the
multiset checks of `std::includes` — it must contain both "link" and
"metadata" and be multiset-contained in {"dep-info", "link", "metadata"} (so
duplicated emit values are also rejected); otherwise parsing succeeds and
stores the sorted list in `m_emit`.  An invocation without `--emit` fails with
the same message. -/
theorem rust_c4_emit_validation (cwd : String) (fe : String → Bool) (e : String)
    (he : ¬ e = "") :
    (cppIncludes (strSort (cppSplit e ',')) ["link", "metadata"] = true ∧
        cppIncludes ["dep-info", "link", "metadata"] (strSort (cppSplit e ',')) = true →
      ∃ st, rust_parse_options cwd fe "" "rustc"
          ["src/lib.rs", "--crate-type", "rlib", "--crate-name", "foo",
           "--out-dir", "t", "--emit", e] = .ok st
        ∧ st.m_emit = strSort (cppSplit e ','))
    ∧ (¬ (cppIncludes (strSort (cppSplit e ',')) ["link", "metadata"] = true ∧
          cppIncludes ["dep-info", "link", "metadata"] (strSort (cppSplit e ',')) = true) →
      rust_parse_options cwd fe "" "rustc"
          ["src/lib.rs", "--crate-type", "rlib", "--crate-name", "foo",
           "--out-dir", "t", "--emit", e]
        = .error "<unknown crate>: --emit required to cache cargo/rustc compilation")
    ∧ rust_parse_options cwd fe "" "rustc"
          ["src/lib.rs", "--crate-type", "rlib", "--crate-name", "foo", "--out-dir", "t"]
        = .error "<unknown crate>: --emit required to cache cargo/rustc compilation" := by
  have hne : ¬ strSort (cppSplit e ',') = [] := strSort_ne_nil _ (cppSplit_ne_nil e ',')
  refine ⟨?_, ?_, ?_⟩
  · rintro ⟨h1, h2⟩
    unfold rust_parse_options
    rw [rust_c4_loop_eval cwd fe e he]
    unfold rust_verify
    rw [if_neg (by simp), if_neg (by simp), if_neg (by simp [hne, h1, h2]),
      if_neg (by simp), if_neg (by simp), if_neg (by simp)]
    exact ⟨_, rfl, rfl⟩
  · intro h
    have hd : cppIncludes (strSort (cppSplit e ',')) ["link", "metadata"] = false ∨
        cppIncludes ["dep-info", "link", "metadata"] (strSort (cppSplit e ',')) = false := by
      by_cases hA : cppIncludes (strSort (cppSplit e ',')) ["link", "metadata"] = true
      · by_cases hB :
            cppIncludes ["dep-info", "link", "metadata"] (strSort (cppSplit e ',')) = true
        · exact absurd ⟨hA, hB⟩ h
        · exact .inr (by simpa using hB)
      · exact .inl (by simpa using hA)
    unfold rust_parse_options
    rw [rust_c4_loop_eval cwd fe e he]
    unfold rust_verify
    rw [if_neg (by simp), if_neg (by simp), if_pos (by simpa using .inr hd)]
    rw [rust_panic_msg_empty]
    rw [show ("<unknown crate>: " ++ "--emit required to cache cargo/rustc compilation")
        = "<unknown crate>: --emit required to cache cargo/rustc compilation" from by decide]
  · show Except.error (rust_panic_msg "" "--emit required to cache cargo/rustc compilation") = _
    rw [rust_panic_msg_empty]
    rw [show ("<unknown crate>: " ++ "--emit required to cache cargo/rustc compilation")
        = "<unknown crate>: --emit required to cache cargo/rustc compilation" from by decide]

/-- C4 witness: `--emit metadata,link` satisfies the checks and parsing
succeeds with the sorted emit list stored. -/
theorem rust_c4_emit_validation_witness :
    ∃ st, rust_parse_options "/w" (fun _ => false) "" "rustc"
        ["src/lib.rs", "--crate-type", "rlib", "--crate-name", "foo",
         "--out-dir", "t", "--emit", "metadata,link"] = .ok st
      ∧ st.m_emit = strSort (cppSplit "metadata,link" ',') :=
  (rust_c4_emit_validation "/w" (fun _ => false) "metadata,link" (by decide)).1
    (by decide)

/-- C5: the CARGO_ environment filter matches the substring "CARGO_" anywhere
in the `NAME=VALUE` entry rather than as a name prefix: the entry
"MYVAR=xCARGO_y" is collected into the relevant-env map under the name
"MYVAR", although "MYVAR" does not begin with "CARGO_". -/
theorem rust_c5_cargo_filter_matches_substring :
    rust_process_dep_info "out.d: main.rs" ["MYVAR=xCARGO_y"]
      = (["main.rs"], [("MYVAR", "xCARGO_y")])
    ∧ startsWithChars "CARGO_".toList "MYVAR".toList = false := by decide

/-- C6 counterexample: for the input command `cppcheck -DFOO src.cpp` (which
contains no `--output-file`), the preprocessor command is
`cppcheck -D FOO src.cpp -E` — the glued `-DFOO` has been split in two — and
not the input command with `-E` appended. -/
theorem cppcheck_c6_glued_two_part_arg_is_split :
    cppcheck_parse_arguments ["cppcheck", "-DFOO", "src.cpp"]
      = .ok [⟨"-D", "FOO", false⟩, ⟨"src.cpp", "", false⟩]
    ∧ cppcheck_make_preprocessor_cmd "cppcheck" [⟨"-D", "FOO", false⟩, ⟨"src.cpp", "", false⟩]
      = ["cppcheck", "-D", "FOO", "src.cpp", "-E"]
    ∧ ¬ cppcheck_make_preprocessor_cmd "cppcheck"
          [⟨"-D", "FOO", false⟩, ⟨"src.cpp", "", false⟩]
        = ["cppcheck", "-DFOO", "src.cpp", "-E"] := by decide

/-- C6 (amended): the preprocessor command equals the program name followed by
the canonical renderings (`arg_pair_t::get`) of every parsed argument pair
except the `--output-file` pairs, in order, with `-E` appended; because
parsing normalizes glued two-part options (`-DFOO` → `-D FOO`), this is not in
general the input token list minus `--output-file`. -/
theorem cppcheck_c6_preprocessor_cmd_from_pairs (arg0 : String) (pairs : List arg_pair_t) :
    cppcheck_make_preprocessor_cmd arg0 pairs
      = (arg0 :: (pairs.filter (fun p => !(decide (p.arg = "--output-file")))).flatMap
          arg_pair_t.get) ++ ["-E"] := by
  unfold cppcheck_make_preprocessor_cmd
  rw [cppcheck_preproc_foldl]
  simp

/-- C7 counterexample: the invocation carries `--crate-name foo`, yet the
error raised for the unsupported `--sysroot` is prefixed `<unknown crate>`
rather than `foo`, because the crate-name member read by `panic` is assigned
only after `parse_options` completes successfully. -/
theorem rust_c7_crate_name_given_but_unknown_crate :
    rust_parse_options "/w" (fun _ => false) "" "rustc"
        ["--crate-name", "foo", "--sysroot", "/x", "src/lib.rs"]
      = .error "<unknown crate>: Unsupported compiler argument --sysroot"
    ∧ startsWithChars "foo".toList
        "<unknown crate>: Unsupported compiler argument --sysroot".toList = false := by
  decide

/-- C7 (amended): every error thrown while `parse_options` runs on a freshly
constructed wrapper (whose `m_crate_name` member is still empty) is prefixed
with "<unknown crate>: ", regardless of whether `--crate-name` appears among
the arguments; the crate-name prefix can only appear in errors thrown by later
hooks, after parsing has completed successfully. -/
theorem rust_c7_parse_errors_always_unknown_crate (cwd : String) (fe : String → Bool)
    (arg0 : String) (args : List String) (msg : String)
    (h : rust_parse_options cwd fe "" arg0 args = .error msg) :
    ∃ m, msg = "<unknown crate>: " ++ m :=
  rust_verify_error_unknown_crate fe _ msg h

/-- C7 witness: the amended statement applied to the concrete `--sysroot`
failure. -/
theorem rust_c7_parse_errors_always_unknown_crate_witness :
    ∃ m, "<unknown crate>: Unsupported compiler argument --sysroot"
      = "<unknown crate>: " ++ m :=
  rust_c7_parse_errors_always_unknown_crate "/w" (fun _ => false) "rustc"
    ["--crate-name", "foo", "--sysroot", "/x", "src/lib.rs"]
    "<unknown crate>: Unsupported compiler argument --sysroot" (by decide)

/-- C8: around every rustc probe subprocess, `run_rustc` unsets exactly the
ten sanitized environment variables for the duration of the call, leaves every
other variable unchanged during it, and restores the entire prior environment
when it returns. -/
theorem rust_c8_run_rustc_env_sanitization (e : EnvState) (n : String) :
    ((run_rustc_env e).1 n = if n ∈ rust_sanitized_env_vars then none else e n)
    ∧ (run_rustc_env e).2 n = e n :=
  scoped_unset_all_spec rust_sanitized_env_vars e n

/-- C9: `env_var_t::as_bool` is false exactly for an undefined variable or a
value that lower-cases to "0", "off", "no", "false" or the empty string, and
true for every other defined value; the concrete vectors of the Boolean
parsing subcase of env_utils_test.cpp are reproduced. -/
theorem env_c9_as_bool_falsy_vocabulary :
    (∀ v : Option String,
      env_var_as_bool v = false ↔
        v = none ∨ ∃ s, v = some s ∧ env_falsy_values.contains (lower_case s) = true)
    ∧ env_var_as_bool (some "TRUe") = true ∧ env_var_as_bool (some "On") = true
    ∧ env_var_as_bool (some "yES") = true ∧ env_var_as_bool (some "1") = true
    ∧ env_var_as_bool (some "Hello world!") = true
    ∧ env_var_as_bool (some "FaLSe") = false ∧ env_var_as_bool (some "OfF") = false
    ∧ env_var_as_bool (some "No") = false ∧ env_var_as_bool (some "0") = false
    ∧ env_var_as_bool (some "") = false ∧ env_var_as_bool none = false := by
  refine ⟨?_, by decide, by decide, by decide, by decide, by decide, by decide,
    by decide, by decide, by decide, by decide, by decide⟩
  intro v
  cases v with
  | none => simp [env_var_as_bool]
  | some s => simp [env_var_as_bool]

/-- C10: the Cppcheck wrapper claims an invocation precisely when the
lower-cased basename (extension removed) of the resolved executable contains
"cppcheck" as a substring anywhere, and the decision is independent of the
argument list; in particular "my-cppcheck-fork" is claimed and "gcc" is not. -/
theorem cppcheck_c10_can_handle_substring_of_basename :
    (∀ (real_path : String) (args : List String),
      cppcheck_can_handle_command real_path args = true ↔
        "cppcheck".toList <:+: (lower_case (get_file_part_noext real_path)).toList)
    ∧ (∀ (real_path : String) (args1 args2 : List String),
      cppcheck_can_handle_command real_path args1
        = cppcheck_can_handle_command real_path args2)
    ∧ cppcheck_can_handle_command "/usr/bin/my-cppcheck-fork" [] = true
    ∧ cppcheck_can_handle_command "/opt/CppCheck.exe" ["--version"] = true
    ∧ cppcheck_can_handle_command "/usr/bin/gcc" ["src.cpp"] = false := by
  refine ⟨?_, fun p a b => rfl, by decide, by decide, by decide⟩
  intro real_path args
  exact containsChars_iff _ _
